import Mathlib

/-!
Shallow embedding of the dataset core of the `emorec` speech-emotion
repository (`emorec/dataset/dataset.py`), together with theorems checking
the natural-language specification's claims against it.

Python lists and numpy 1-D integer arrays are modelled as Lean `List`s;
2-D arrays as lists of rows; a ragged feature container as a list of 2-D
arrays.  Python's total-on-valid-input indexing `l[i]` is modelled with
`List.getD` (claims never exercise the out-of-range case), `list.index` /
membership with `List.indexOf` / `∈`, and `sorted(set(...))` with
insertion sort over `dedup`.  Raised exceptions are modelled with an
explicit error type; quoting inside exception messages is elided.
-/

namespace Emorec

/-- Exceptions the embedded code can raise, plus the dedicated
`unsupportedFormatError` the specification names (no such exception class
exists anywhere in the repository's sources; the constructor is included
only so that the specification's claim about it can be stated). -/
inductive PyErr where
  | attributeError : String → PyErr
  | typeError : String → PyErr
  | notImplementedError : String → PyErr
  | unsupportedFormatError : String → PyErr
deriving DecidableEq, Repr

/-- Model of `np.bincount(l, minlength=m)`: entry `i` counts the
occurrences of `i` in `l`; the result has length
`max m (max l + 1)` (`0` for an empty `l` with `m = 0`). -/
def bincount (l : List Nat) (minlength : Nat) : List Nat :=
  (List.range (max minlength (l.foldr (fun a b => max (a + 1) b) 0))).map
    (fun i => l.count i)

/-- Insertion into a sorted list with respect to a boolean comparator. -/
def insertLe {α : Type} (le : α → α → Bool) (x : α) : List α → List α
  | [] => [x]
  | y :: t => if le x y then x :: y :: t else y :: insertLe le x t

/-- Insertion sort with respect to a boolean comparator; models Python's
`sorted` (any stable comparison sort agrees with it on duplicate-free
input under a total order). -/
def sortLe {α : Type} (le : α → α → Bool) : List α → List α
  | [] => []
  | x :: t => insertLe le x (sortLe le t)

/-- Lexicographic string comparison by code point, as Python compares
strings. -/
def pyStrLe (a b : String) : Bool :=
  decide (a.data ≤ b.data)

/-- Model of Python's `sorted(set(...))` on strings: deduplicate, then
sort lexicographically. -/
def pySortedSet (l : List String) : List String :=
  sortLe pyStrLe l.dedup

/-- Model of `np.unique` on a 1-D integer array: sorted distinct values. -/
def npUnique (l : List Nat) : List Nat :=
  sortLe (fun a b => decide (a ≤ b)) l.dedup

/-- Positions `i` of `names` whose entry is a member of `keep`: the list
comprehension filtering `enumerate(names)` by membership in `keep`. -/
def keepPositions (names : List String) (keep : List String) : List Nat :=
  (List.range names.length).filter (fun i => decide (names.getD i "" ∈ keep))

/-- Flattening of a ragged container, from `_make_flat`: concatenate the
per-instance 2-D arrays along the time axis and record each instance's
length. -/
def makeFlat {α : Type} (a : List (List α)) : List α × List Nat :=
  (a.flatten, a.map List.length)

/-- Re-splitting of a flat array, from `_make_ragged`:
`np.split(flat, np.cumsum(slices)[:-1])` cuts `flat` at the running sums
of all but the last slice length, the last piece taking the remainder. -/
def makeRagged {α : Type} (flat : List α) : List Nat → List (List α)
  | [] => [flat]
  | [_] => [flat]
  | s :: s₂ :: rest => flat.take s :: makeRagged (flat.drop s) (s₂ :: rest)

/-- State of a `Dataset` object (`dataset.py`, class `Dataset`): parallel
per-instance arrays (`names`, `x`, `speakerIndices`, ...) plus the
speaker-level lists.  The feature container is `List α` (one entry per
instance).  `maleIndices`/`femaleIndices` are `Option`s because the Python
attributes `_male_indices`/`_female_indices` are only ever assigned inside
`_reset_male_female_indices`, which runs only when both gender speaker
lists are non-empty; `none` models the attribute never having been set. -/
structure Dataset (α : Type) where
  corpus : String
  names : List String
  x : List α
  speakers : List String
  maleSpeakers : List String
  femaleSpeakers : List String
  speakerGroups : List (List String)
  speakerIndices : List Nat
  speakerCounts : List Nat
  speakerGroupIndices : List Nat
  maleIndices : Option (List Nat)
  femaleIndices : Option (List Nat)
deriving Repr

/-- Speaker-to-group map built by `_reset_speaker_group_indices`: iterate
over the groups in order, writing each group's index at the position of
every one of its member speakers (a later group overwrites an earlier one
for a shared speaker).  `np.empty` is modelled as zeros; every entry is
overwritten whenever the groups cover all speakers. -/
def buildSpeakerToGroup (speakers : List String) (groups : List (List String)) :
    List Nat :=
  groups.enum.foldl
    (fun arr p => p.2.foldl (fun arr sp => arr.set (speakers.indexOf sp) p.1) arr)
    (List.replicate speakers.length 0)

/-- Model of `Dataset._reset_speaker_group_indices`: index the
speaker-to-group map by each instance's speaker index. -/
def resetSpeakerGroupIndices (speakers : List String) (groups : List (List String))
    (speakerIndices : List Nat) : List Nat :=
  speakerIndices.map (fun s => (buildSpeakerToGroup speakers groups).getD s 0)

/-- Model of the first array of
`np.isin(np.array(speakers)[speaker_indices], targets).nonzero()` used by
`_reset_male_female_indices`: instance positions whose speaker is in
`targets`. -/
def isinNonzero (speakers : List String) (speakerIndices : List Nat)
    (targets : List String) : List Nat :=
  (List.range speakerIndices.length).filter
    (fun i => decide (speakers.getD (speakerIndices.getD i 0) "" ∈ targets))

/-- Model of `Dataset.remove_instances(keep)`.  All mutations the Python
method performs before any exception are reflected in the returned state,
and the second component records the exception, if any.  In the
non-compacting branch the method evaluates `self.male_indices[idx]`: if
`_male_indices` was never assigned this raises `AttributeError`; if it was
assigned, its value is the tuple returned by `.nonzero()`, and indexing a
tuple with a list raises `TypeError`. -/
def removeInstances {α : Type} [Inhabited α] (d : Dataset α) (keep : List String) :
    Dataset α × Option PyErr :=
  let idx := keepPositions d.names keep
  let names' := idx.map (fun i => d.names.getD i "")
  let x' := idx.map (fun i => d.x.getD i default)
  let newSp := npUnique (idx.map (fun i => d.speakerIndices.getD i 0))
  if newSp.length < d.speakers.length then
    let newSpeakers := newSp.map (fun j => d.speakers.getD j "")
    let spIdx' := idx.map (fun i =>
      newSpeakers.indexOf (d.speakers.getD (d.speakerIndices.getD i 0) ""))
    let newSpGrp := npUnique (idx.map (fun i => d.speakerGroupIndices.getD i 0))
    let groups' := newSpGrp.map (fun j => d.speakerGroups.getD j [])
    let grpIdx' := resetSpeakerGroupIndices newSpeakers groups' spIdx'
    if d.maleSpeakers ≠ [] ∧ d.femaleSpeakers ≠ [] then
      let male' := d.maleSpeakers.filter (fun s => decide (s ∈ newSpeakers))
      let female' := d.femaleSpeakers.filter (fun s => decide (s ∈ newSpeakers))
      let mf : Option (List Nat) × Option (List Nat) :=
        if male' ≠ [] ∧ female' ≠ [] then
          (some (isinNonzero newSpeakers spIdx' male'),
           some (isinNonzero newSpeakers spIdx' female'))
        else (d.maleIndices, d.femaleIndices)
      ({ d with
          names := names', x := x', speakers := newSpeakers,
          speakerIndices := spIdx', speakerGroups := groups',
          speakerGroupIndices := grpIdx', maleSpeakers := male',
          femaleSpeakers := female', maleIndices := mf.1, femaleIndices := mf.2 },
       none)
    else
      ({ d with
          names := names', x := x', speakers := newSpeakers,
          speakerIndices := spIdx', speakerGroups := groups',
          speakerGroupIndices := grpIdx' }, none)
  else
    let d' := { d with
                names := names', x := x',
                speakerIndices := idx.map (fun i => d.speakerIndices.getD i 0),
                speakerGroupIndices :=
                  idx.map (fun i => d.speakerGroupIndices.getD i 0) }
    match d.maleIndices with
    | none =>
      (d', some (.attributeError "Dataset object has no attribute male_indices"))
    | some _ =>
      (d', some (.typeError "tuple indices must be integers or slices, not list"))

/-- Dataset state with no configured male/female speaker lists, as produced
by `Dataset.__init__` for a corpus without a registry entry: both
`_male_indices` and `_female_indices` were never assigned. -/
def dNoMF : Dataset Nat :=
  { corpus := "test", names := ["a", "b"], x := [0, 1], speakers := ["X", "Y"],
    maleSpeakers := [], femaleSpeakers := [],
    speakerGroups := [["X"], ["Y"]], speakerIndices := [0, 1],
    speakerCounts := [1, 1], speakerGroupIndices := [0, 1],
    maleIndices := none, femaleIndices := none }

/-- State of a `LabelledDataset` object (`dataset.py`, class
`LabelledDataset`): the base Dataset fields the labelled operations touch,
plus the class taxonomy, the numeric label array `y` and the per-class
counts.  The male/female machinery plays no role in the labelled
operations modelled here and is omitted from this record. -/
structure LabelledDataset (α : Type) where
  corpus : String
  names : List String
  x : List α
  speakers : List String
  speakerGroups : List (List String)
  speakerIndices : List Nat
  speakerCounts : List Nat
  speakerGroupIndices : List Nat
  classes : List String
  y : List Nat
  classCounts : List Nat
deriving Repr

/-- Model of Python's `map.get(k, k)`: look `k` up in the mapping, falling
back to `k` itself. -/
def dictGetD (m : List (String × String)) (k : String) : String :=
  match m.lookup k with
  | some v => v
  | none => k

/-- Model of `LabelledDataset.map_classes(map)`: the new class list is the
sorted unique set of mapped names, every label is translated through the
position map `arr_map`, and the class counts are recomputed from the new
label array. -/
def mapClasses {α : Type} (st : LabelledDataset α) (m : List (String × String)) :
    LabelledDataset α :=
  let newClasses := pySortedSet (st.classes.map (dictGetD m))
  let arrMap := st.classes.map (fun k => newClasses.indexOf (dictGetD m k))
  let y' := st.y.map (fun v => arrMap.getD v 0)
  { st with
    classes := newClasses, y := y', classCounts := bincount y' 0 }

/-- Model of `LabelledDataset.remove_classes(keep)`: filter instances by
string label, rebuild names / features / speaker indices and counts
directly, set the class list to the sorted intersection with `keep` and
recompute labels and class counts — and assign `_speaker_group_indices`
to be the (filtered) `_speaker_indices`, while `_speakers` and
`_speaker_groups` are left untouched. -/
def removeClasses {α : Type} [Inhabited α] (st : LabelledDataset α)
    (keep : List String) : LabelledDataset α :=
  let strLabels := st.y.map (fun i => st.classes.getD i "")
  let keepIdx := (List.range strLabels.length).filter
    (fun i => decide (strLabels.getD i "" ∈ keep))
  let x' := keepIdx.map (fun i => st.x.getD i default)
  let names' := keepIdx.map (fun i => st.names.getD i "")
  let spIdx' := keepIdx.map (fun i => st.speakerIndices.getD i 0)
  let newClasses := pySortedSet (st.classes.filter (fun c => decide (c ∈ keep)))
  let strLabels' := strLabels.filter (fun s => decide (s ∈ keep))
  let y' := strLabels'.map (fun s => newClasses.indexOf s)
  { st with
    x := x', names := names', speakerIndices := spIdx',
    speakerCounts := bincount spIdx' st.speakers.length,
    speakerGroupIndices := spIdx',
    classes := newClasses, y := y', classCounts := bincount y' 0 }

/-- Concrete two-class labelled dataset used to witness the
`map_classes` claim. -/
def stTwoClasses : LabelledDataset Nat :=
  { corpus := "A", names := ["a1", "a2"], x := [1, 2], speakers := ["X"],
    speakerGroups := [["X"]], speakerIndices := [0, 0], speakerCounts := [2],
    speakerGroupIndices := [0, 0], classes := ["happy", "sad"], y := [0, 1],
    classCounts := [1, 1] }

/-- Labelled dataset whose speaker `"Y"` carries only the `"sad"`
instance; used to exhibit the frame effects of `remove_classes`. -/
def stTwoSpeakers : LabelledDataset Nat :=
  { corpus := "A", names := ["a", "b"], x := [1, 2], speakers := ["X", "Y"],
    speakerGroups := [["X"], ["Y"]], speakerIndices := [0, 1],
    speakerCounts := [1, 1], speakerGroupIndices := [0, 1],
    classes := ["happy", "sad"], y := [0, 1], classCounts := [1, 1] }

/-- State of a `CombinedDataset` object (`dataset.py`, class
`CombinedDataset`).  The feature-name list (copied verbatim from the first
source) plays no role in the claims and is omitted. -/
structure CombinedDataset (α : Type) where
  corpus : String
  corpora : List String
  corpusIndices : List Nat
  corpusCounts : List Nat
  names : List String
  x : List α
  speakers : List String
  speakerIndices : List Nat
  speakerGroups : List (List String)
  speakerGroupIndices : List Nat
  classes : List String
  y : List Nat
deriving Repr

/-- Model of `CombinedDataset.__init__(*datasets, labels=labels)`:
corpus indices by `np.repeat`, names and speakers namespaced with the
source corpus, speaker/group index arrays offset and concatenated,
features concatenated, classes reconciled as the sorted union (or the
sorted allow-list, with instances of dropped labels filtered out of `x`,
`speaker_indices` and the string-label list — and of nothing else), the
numeric labels recomputed against the final class list, and
`speaker_group_indices` finally overwritten with `speaker_indices`. -/
def combinedInit {α : Type} [Inhabited α] (datasets : List (LabelledDataset α))
    (labels : Option (List String)) : CombinedDataset α :=
  let corpora := datasets.map (fun d => d.corpus)
  let corpusIndices :=
    datasets.enum.flatMap (fun p => List.replicate p.2.x.length p.1)
  let names :=
    datasets.flatMap (fun d => d.names.map (fun n => d.corpus ++ "_" ++ n))
  let spAcc := datasets.foldl
    (fun (acc : (List String × List Nat) × (List (List String) × List Nat)) d =>
      ((acc.1.1 ++ d.speakers.map (fun s => d.corpus ++ "_" ++ s),
        acc.1.2 ++ d.speakerIndices.map (fun i => i + acc.1.1.length)),
       (acc.2.1 ++ d.speakerGroups.map (fun g => g.map (fun s => d.corpus ++ "_" ++ s)),
        acc.2.2 ++ d.speakerGroupIndices.map (fun i => i + acc.2.1.length))))
    (([], []), ([], []))
  let speakers := spAcc.1.1
  let speakerIndices0 := spAcc.1.2
  let x0 := datasets.flatMap (fun d => d.x)
  let allLabels := datasets.flatMap (fun d => d.classes)
  let strLabels0 := datasets.flatMap (fun d => d.y.map (fun i => d.classes.getD i ""))
  match labels with
  | none =>
    let classes := pySortedSet allLabels
    let y := strLabels0.map (fun s => classes.indexOf s)
    { corpus := "combined", corpora := corpora, corpusIndices := corpusIndices,
      corpusCounts := bincount corpusIndices 0, names := names, x := x0,
      speakers := speakers, speakerIndices := speakerIndices0,
      speakerGroups := spAcc.2.1, speakerGroupIndices := speakerIndices0,
      classes := classes, y := y }
  | some labs =>
    let dropped := fun s => decide (s ∈ allLabels ∧ s ∉ labs)
    let keepIdx := (List.range strLabels0.length).filter
      (fun i => ! dropped (strLabels0.getD i ""))
    let x1 := keepIdx.map (fun i => x0.getD i default)
    let spIdx1 := keepIdx.map (fun i => speakerIndices0.getD i 0)
    let classes := pySortedSet labs
    let strLabels1 := strLabels0.filter (fun s => ! dropped s)
    let y := strLabels1.map (fun s => classes.indexOf s)
    { corpus := "combined", corpora := corpora, corpusIndices := corpusIndices,
      corpusCounts := bincount corpusIndices 0, names := names, x := x1,
      speakers := speakers, speakerIndices := spIdx1,
      speakerGroups := spAcc.2.1, speakerGroupIndices := spIdx1,
      classes := classes, y := y }

/-- Model of `CombinedDataset.get_corpus_split(corpus)`: positions of the
corpus-index array equal to the index of `corpus` in the corpora list,
and the remaining positions. -/
def getCorpusSplit {α : Type} (cd : CombinedDataset α) (corpus : String) :
    List Nat × List Nat :=
  let k := cd.corpora.indexOf corpus
  ((List.range cd.corpusIndices.length).filter
      (fun i => decide (cd.corpusIndices.getD i 0 = k)),
   (List.range cd.corpusIndices.length).filter
      (fun i => ! decide (cd.corpusIndices.getD i 0 = k)))

/-- Scenario A source dataset `A`: instances `a1` (speaker `X`, class
`happy`) and `a2` (speaker `Y`, class `sad`). -/
def dsA : LabelledDataset Nat :=
  { corpus := "A", names := ["a1", "a2"], x := [10, 20], speakers := ["X", "Y"],
    speakerGroups := [["X"], ["Y"]], speakerIndices := [0, 1],
    speakerCounts := [1, 1], speakerGroupIndices := [0, 1],
    classes := ["happy", "sad"], y := [0, 1], classCounts := [1, 1] }

/-- Scenario A source dataset `B`: instance `b1` (speaker `Z`, class
`happy`). -/
def dsB : LabelledDataset Nat :=
  { corpus := "B", names := ["b1"], x := [30], speakers := ["Z"],
    speakerGroups := [["Z"]], speakerIndices := [0], speakerCounts := [1],
    speakerGroupIndices := [0], classes := ["happy"], y := [0],
    classCounts := [1] }

/-- Registered backend suffixes: the keys of the `_BACKENDS` table. -/
def backendSuffixes : List String := [".nc", ".txt", ".arff"]

/-- Model of the backend lookup in `Dataset.__init__`: an unregistered
path suffix makes the table lookup raise `KeyError`, whose handler raises
`NotImplementedError` with the message `Unknown filetype` naming the
suffix (quoting elided); a registered suffix constructs the backend and
raises nothing. -/
def datasetInitBackendErr (suffix : String) : Option PyErr :=
  if suffix ∈ backendSuffixes then none
  else some (.notImplementedError ("Unknown filetype " ++ suffix ++ "."))

/-- Boolean test for the dedicated unrecognized-format error the
specification names. -/
def isUnsupportedFormatError : Option PyErr → Bool
  | some (.unsupportedFormatError _) => true
  | _ => false

theorem makeRagged_flatten {α : Type} :
    ∀ (a : List (List α)), a ≠ [] → makeRagged a.flatten (a.map List.length) = a
  | [], h => absurd rfl h
  | [x], _ => by simp [makeRagged]
  | x :: y :: rest, _ => by
    have ih := makeRagged_flatten (y :: rest) (by simp)
    simp only [List.map_cons, List.flatten_cons] at ih ⊢
    simp only [makeRagged, List.take_left, List.drop_left]
    rw [ih]

theorem filter_range_map_getD {α : Type} (q : α → Bool) (dflt : α) :
    ∀ (l : List α),
      ((List.range l.length).filter (fun i => q (l.getD i dflt))).map
        (fun i => l.getD i dflt) = l.filter q
  | [] => by simp
  | a :: t => by
    have ih := filter_range_map_getD q dflt t
    simp only [List.length_cons, List.range_succ_eq_map, List.filter_cons,
      List.getD_cons_zero, List.filter_map, Function.comp_def,
      List.getD_cons_succ, List.map_map]
    cases hqa : q a <;> simp_all [Function.comp_def]

theorem map_self_of_mem {α : Type} (f : α → α) :
    ∀ (l : List α), (∀ a ∈ l, f a = a) → l.map f = l
  | [], _ => rfl
  | a :: t, h => by
    rw [List.map_cons, h a (List.mem_cons_self a t),
      map_self_of_mem f t (fun b hb => h b (List.mem_cons_of_mem a hb))]

theorem insertLe_head {α : Type} (le : α → α → Bool) (x y : α) (t : List α)
    (h : le x y = true) : insertLe le x (y :: t) = x :: y :: t := by
  rw [insertLe, if_pos h]

theorem sortLe_eq_self {α : Type} (le : α → α → Bool) :
    ∀ (l : List α), l.Pairwise (fun a b => le a b = true) → sortLe le l = l
  | [], _ => rfl
  | x :: t, h => by
    rw [sortLe, sortLe_eq_self le t (List.pairwise_cons.1 h).2]
    cases t with
    | nil => rfl
    | cons y u =>
      exact insertLe_head le x y u
        ((List.pairwise_cons.1 h).1 y (List.mem_cons_self y u))

theorem pySortedSet_eq_self (l : List String) (hnd : l.Nodup)
    (hs : l.Pairwise (fun a b => pyStrLe a b = true)) : pySortedSet l = l := by
  unfold pySortedSet
  rw [List.dedup_eq_self.2 hnd]
  exact sortLe_eq_self pyStrLe l hs

theorem le_bincount_length (l : List Nat) (m : Nat) : m ≤ (bincount l m).length := by
  unfold bincount
  rw [List.length_map, List.length_range]
  exact Nat.le_max_left _ _

theorem bincount_getD_eq_zero (l : List Nat) (m s : Nat) (hs : s < m)
    (hnot : s ∉ l) : (bincount l m).getD s 1 = 0 := by
  unfold bincount
  have hlt : s < ((List.range
      (max m (l.foldr (fun a b => max (a + 1) b) 0))).map
        (fun i => l.count i)).length := by
    rw [List.length_map, List.length_range]
    exact lt_of_lt_of_le hs (Nat.le_max_left _ _)
  rw [List.getD_eq_getElem _ _ hlt]
  simp only [List.getElem_map, List.getElem_range]
  exact List.count_eq_zero.2 hnot

/-- C4: flattening a non-empty ragged feature container with a common
feature dimension via `_make_flat` and re-splitting the flat array with
`_make_ragged` using the recorded per-instance lengths reproduces every
instance's original array exactly. -/
theorem flat_ragged_roundtrip {α : Type} (a : List (List (List α))) (d : Nat)
    (hne : a ≠ []) (hdim : ∀ inst ∈ a, ∀ row ∈ inst, row.length = d) :
    makeRagged (makeFlat a).1 (makeFlat a).2 = a := by
  clear hdim
  exact makeRagged_flatten a hne

/-- Witness for C4 at a concrete ragged container of two instances with
feature dimension 2. -/
theorem flat_ragged_roundtrip_witness :
    makeRagged (makeFlat [[[1, 2], [3, 4]], [[5, 6]]]).1
        (makeFlat [[[1, 2], [3, 4]], [[5, 6]]]).2 = [[[1, 2], [3, 4]], [[5, 6]]] :=
  flat_ragged_roundtrip [[[1, 2], [3, 4]], [[5, 6]]] 2 (by decide)
    (by intro inst hi row hr; fin_cases hi <;> fin_cases hr <;> rfl)

/-- C5: for every Dataset and every `keep`, `remove_instances(keep)` sets
the names list to exactly the subsequence of the prior names that are in
`keep`, in their original relative order (the names field is assigned
before any branch of the method can raise). -/
theorem remove_instances_names_filter {α : Type} [Inhabited α]
    (d : Dataset α) (keep : List String) :
    (removeInstances d keep).1.names =
      d.names.filter (fun n => decide (n ∈ keep)) := by
  have h := filter_range_map_getD (fun n => decide (n ∈ keep)) "" d.names
  unfold removeInstances keepPositions
  dsimp only
  split
  · split <;> exact h
  · split <;> exact h

/-- C9: on a Dataset whose male and female speaker lists are not both
configured (so `_male_indices` was never assigned), any
`remove_instances(keep)` whose kept instances still span all current
speakers takes the non-compacting branch, which unconditionally reads the
`male_indices` attribute and raises instead of completing the filter. -/
theorem remove_instances_unconfigured_raises {α : Type} [Inhabited α]
    (d : Dataset α) (keep : List String)
    (hconf : d.maleSpeakers = [] ∨ d.femaleSpeakers = [])
    (hmi : d.maleIndices = none)
    (hspan : ¬ (npUnique ((keepPositions d.names keep).map
        (fun i => d.speakerIndices.getD i 0))).length < d.speakers.length) :
    (removeInstances d keep).2 =
      some (PyErr.attributeError "Dataset object has no attribute male_indices") := by
  clear hconf
  unfold removeInstances
  dsimp only
  rw [if_neg hspan, hmi]

/-- Witness for C9: on `dNoMF`, keeping every instance spans both speakers,
and the call raises `AttributeError`. -/
theorem remove_instances_unconfigured_raises_witness :
    (removeInstances dNoMF ["a", "b"]).2 =
      some (PyErr.attributeError "Dataset object has no attribute male_indices") :=
  remove_instances_unconfigured_raises dNoMF ["a", "b"] (Or.inl rfl) rfl (by decide)

/-- C1 (code bug): `Dataset.remove_instances` never recomputes
`_speaker_counts`.  On `dNoMF` (two speakers, one instance each), keeping
only instance `"a"` removes one instance and compacts the speaker list to
`["X"]`, and the call completes without error — yet `speaker_counts` is
still the stale `[1, 1]`: its sum is 2 while `n_instances` is 1, and it
differs from the bincount of the new speaker indices. -/
theorem remove_instances_speaker_counts_stale :
    ((removeInstances dNoMF ["a"]).2 = none ∧
      (removeInstances dNoMF ["a"]).1.names.length = 1 ∧
      (removeInstances dNoMF ["a"]).1.speakers = ["X"]) ∧
    (removeInstances dNoMF ["a"]).1.speakerCounts = [1, 1] ∧
    (removeInstances dNoMF ["a"]).1.speakerCounts.sum ≠
      (removeInstances dNoMF ["a"]).1.names.length ∧
    (removeInstances dNoMF ["a"]).1.speakerCounts ≠
      bincount (removeInstances dNoMF ["a"]).1.speakerIndices
        (removeInstances dNoMF ["a"]).1.speakers.length := by
  decide

/-- C7: on a LabelledDataset whose state satisfies the maintained
invariants (class list sorted and duplicate-free, labels in range, counts
the bincount of the labels), `map_classes` with an identity mapping (every
class maps to itself or is absent from the mapping) leaves classes, the
numeric label array and the class counts unchanged — the whole state is
unchanged — and applying the same mapping a second time yields the same
state as applying it once. -/
theorem map_classes_identity {α : Type} (st : LabelledDataset α)
    (m : List (String × String))
    (hid : ∀ c ∈ st.classes, dictGetD m c = c)
    (hnodup : st.classes.Nodup)
    (hsort : st.classes.Pairwise (fun a b => pyStrLe a b = true))
    (hy : ∀ v ∈ st.y, v < st.classes.length)
    (hcnt : st.classCounts = bincount st.y 0) :
    mapClasses st m = st ∧ mapClasses (mapClasses st m) m = mapClasses st m := by
  have hmap : st.classes.map (dictGetD m) = st.classes :=
    map_self_of_mem (dictGetD m) st.classes hid
  have hcl : pySortedSet (st.classes.map (dictGetD m)) = st.classes := by
    rw [hmap]; exact pySortedSet_eq_self st.classes hnodup hsort
  have harr : ∀ v ∈ st.y,
      (st.classes.map (fun k => st.classes.indexOf (dictGetD m k))).getD v 0 = v := by
    intro v hv
    have hvlt := hy v hv
    have hlen : v < (st.classes.map
        (fun k => st.classes.indexOf (dictGetD m k))).length := by
      simpa using hvlt
    rw [List.getD_eq_getElem _ _ hlen, List.getElem_map,
      hid _ (List.getElem_mem hvlt)]
    exact List.indexOf_getElem hnodup v hvlt
  have hfirst : mapClasses st m = st := by
    unfold mapClasses
    simp only [hcl]
    rw [map_self_of_mem _ st.y harr, ← hcnt]
  exact ⟨hfirst, by simp only [hfirst]⟩

/-- Witness for C7: the identity mapping on `stTwoClasses` leaves the
state unchanged, and a second application changes nothing further. -/
theorem map_classes_identity_witness :
    mapClasses stTwoClasses [("happy", "happy")] = stTwoClasses ∧
      mapClasses (mapClasses stTwoClasses [("happy", "happy")])
          [("happy", "happy")] =
        mapClasses stTwoClasses [("happy", "happy")] :=
  map_classes_identity stTwoClasses [("happy", "happy")] (by decide) (by decide)
    (by decide) (by decide) (by decide)

/-- C10: `remove_classes(keep)` never touches the speakers list or the
speaker-group list, overwrites `speaker_group_indices` with (exactly) the
filtered `speaker_indices` regardless of the configured groups, and keeps
speakers that lost all their instances listed: the recomputed counts
extend to every current speaker, with a zero entry for any speaker index
that no remaining instance carries. -/
theorem remove_classes_frame {α : Type} [Inhabited α] (st : LabelledDataset α)
    (keep : List String) :
    (removeClasses st keep).speakers = st.speakers ∧
    (removeClasses st keep).speakerGroups = st.speakerGroups ∧
    (removeClasses st keep).speakerGroupIndices =
      (removeClasses st keep).speakerIndices ∧
    st.speakers.length ≤ (removeClasses st keep).speakerCounts.length ∧
    ∀ s, s < st.speakers.length →
      s ∉ (removeClasses st keep).speakerIndices →
      (removeClasses st keep).speakerCounts.getD s 1 = 0 := by
  simp only [removeClasses]
  refine ⟨trivial, trivial, trivial, le_bincount_length _ _, ?_⟩
  intro s hs hnot
  exact bincount_getD_eq_zero _ _ s hs hnot

/-- Witness for C10 on `stTwoSpeakers` with `keep = ["happy"]`: speaker
lists unchanged, group indices equal speaker indices, and speaker 1 (all
of whose instances were removed) keeps a slot with count zero. -/
theorem remove_classes_frame_witness :
    (removeClasses stTwoSpeakers ["happy"]).speakers = stTwoSpeakers.speakers ∧
    (removeClasses stTwoSpeakers ["happy"]).speakerCounts.getD 1 1 = 0 :=
  ⟨(remove_classes_frame stTwoSpeakers ["happy"]).1,
   (remove_classes_frame stTwoSpeakers ["happy"]).2.2.2.2 1 (by decide) (by decide)⟩

/-- C3: combining datasets A and B of Scenario A with no allow-list gives
3 instances, classes `["happy", "sad"]`, corpus indices `[0, 0, 1]`, and
speakers `["A_X", "A_Y", "B_Z"]`, with each source's speakers and instance
names prefixed by its corpus name. -/
theorem combined_scenario_a :
    (combinedInit [dsA, dsB] none).names.length = 3 ∧
    (combinedInit [dsA, dsB] none).classes = ["happy", "sad"] ∧
    (combinedInit [dsA, dsB] none).corpusIndices = [0, 0, 1] ∧
    (combinedInit [dsA, dsB] none).speakers = ["A_X", "A_Y", "B_Z"] ∧
    (combinedInit [dsA, dsB] none).names = ["A_a1", "A_a2", "B_b1"] ∧
    (combinedInit [dsA, dsB] none).y = [0, 1, 0] := by
  decide

/-- C2 (code bug): `CombinedDataset.__init__` with the allow-list
`["happy"]` on the Scenario A sources drops the `sad` instance from the
feature rows, the speaker indices and the labels, but not from the names
or the corpus indices, so the parallel arrays disagree in length:
`len(names) = 3` while `len(speaker_indices) = len(x) = 2`. -/
theorem combined_allowlist_names_not_filtered :
    (combinedInit [dsA, dsB] (some ["happy"])).x.length = 2 ∧
    (combinedInit [dsA, dsB] (some ["happy"])).speakerIndices.length = 2 ∧
    (combinedInit [dsA, dsB] (some ["happy"])).y.length = 2 ∧
    (combinedInit [dsA, dsB] (some ["happy"])).names.length = 3 ∧
    (combinedInit [dsA, dsB] (some ["happy"])).corpusIndices.length = 3 ∧
    (combinedInit [dsA, dsB] (some ["happy"])).names.length ≠
      (combinedInit [dsA, dsB] (some ["happy"])).speakerIndices.length := by
  decide

/-- C8: for a CombinedDataset whose corpus-index array spans all instance
positions, `get_corpus_split` returns disjoint index lists that together
cover every position `0 ≤ i < n_instances`, the first being exactly the
positions whose corpus index is that of the named corpus; on the
Scenario A combination, `get_corpus_split("A")` gives `([0, 1], [2])`. -/
theorem get_corpus_split_partition {α : Type} (cd : CombinedDataset α)
    (corpus : String) (hc : corpus ∈ cd.corpora)
    (hlen : cd.corpusIndices.length = cd.names.length) :
    (∀ i, i ∈ (getCorpusSplit cd corpus).1 → i ∉ (getCorpusSplit cd corpus).2) ∧
    (∀ i, i < cd.names.length →
      i ∈ (getCorpusSplit cd corpus).1 ∨ i ∈ (getCorpusSplit cd corpus).2) ∧
    (∀ i, i ∈ (getCorpusSplit cd corpus).1 ↔
      i < cd.names.length ∧
        cd.corpusIndices.getD i 0 = cd.corpora.indexOf corpus) ∧
    (getCorpusSplit (combinedInit [dsA, dsB] none) "A").1 = [0, 1] ∧
    (getCorpusSplit (combinedInit [dsA, dsB] none) "A").2 = [2] := by
  clear hc
  refine ⟨?_, ?_, ?_, by decide, by decide⟩
  · intro i h1 h2
    rw [getCorpusSplit] at h1 h2
    simp only [List.mem_filter, List.mem_range] at h1 h2
    rcases h1 with ⟨-, hp⟩
    rcases h2 with ⟨-, hn⟩
    rw [hp] at hn
    simp at hn
  · intro i hi
    rw [getCorpusSplit]
    simp only [List.mem_filter, List.mem_range, ← hlen] at hi ⊢
    by_cases h : cd.corpusIndices.getD i 0 = cd.corpora.indexOf corpus
    · exact Or.inl ⟨hi, by simpa using h⟩
    · exact Or.inr ⟨hi, by simpa using h⟩
  · intro i
    rw [getCorpusSplit]
    simp only [List.mem_filter, List.mem_range, ← hlen]
    constructor
    · rintro ⟨h1, h2⟩
      exact ⟨h1, by simpa using h2⟩
    · rintro ⟨h1, h2⟩
      exact ⟨h1, by simpa using h2⟩

/-- Witness for C8: the scenario values, obtained from the partition
theorem applied to the Scenario A combination. -/
theorem get_corpus_split_partition_witness :
    (getCorpusSplit (combinedInit [dsA, dsB] none) "A").1 = [0, 1] ∧
    (getCorpusSplit (combinedInit [dsA, dsB] none) "A").2 = [2] :=
  ⟨(get_corpus_split_partition (combinedInit [dsA, dsB] none) "A" (by decide)
      (by decide)).2.2.2.1,
   (get_corpus_split_partition (combinedInit [dsA, dsB] none) "A" (by decide)
      (by decide)).2.2.2.2⟩

/-- C6 (counterexample): constructing a Dataset from a path with the
unregistered suffix `.csv` raises `NotImplementedError`, not a dedicated
`UnsupportedFormatError` (no such exception class exists in the code). -/
theorem dataset_init_unknown_suffix_counterexample :
    datasetInitBackendErr ".csv" =
      some (PyErr.notImplementedError "Unknown filetype .csv.") ∧
    isUnsupportedFormatError (datasetInitBackendErr ".csv") = false := by
  decide

/-- C6 (amended): constructing a Dataset from a path whose suffix has no
registered backend adapter raises `NotImplementedError` with the message
`Unknown filetype` naming the suffix, for every such suffix. -/
theorem dataset_init_unknown_suffix_raises (suffix : String)
    (h : suffix ∉ backendSuffixes) :
    datasetInitBackendErr suffix =
      some (PyErr.notImplementedError ("Unknown filetype " ++ suffix ++ ".")) := by
  unfold datasetInitBackendErr
  rw [if_neg h]

/-- Witness for the amended C6 at the concrete suffix `.csv`. -/
theorem dataset_init_unknown_suffix_raises_witness :
    datasetInitBackendErr ".csv" =
      some (PyErr.notImplementedError ("Unknown filetype " ++ ".csv" ++ ".")) :=
  dataset_init_unknown_suffix_raises ".csv" (by decide)

end Emorec
